import Mathlib

/-!
Shallow embedding of `webrtcwebsink/plugin.py` (class `WebRTCWebSink`):
encoder selection (`find_best_encoder`), per-client branch construction
(`create_webrtcbin`), and the lifecycle handler (`do_change_state`,
`start_servers`, `stop_servers`).
-/

namespace WebRTCWebSink

/-- A GStreamer element factory as seen by `find_best_encoder`:
its name, whether the word "encoder" occurs in its lower-cased klass
metadata, its rank, and the set of caps strings its SRC pad templates can
intersect with. The registry is the discovery-ordered list of factories. -/
structure Factory where
  name : String
  klassHasEncoder : Bool
  rank : Nat
  srcCaps : List String
deriving Repr, DecidableEq

/-- The `codec_caps` table of `find_best_encoder`. -/
def codec_caps : List (String × String) :=
  [("vp8", "video/x-vp8"), ("h264", "video/x-h264"),
   ("vp9", "video/x-vp9"), ("av1", "video/x-av1")]

/-- The `payloader_map` table of `find_best_encoder`. -/
def payloader_map : List (String × String) :=
  [("vp8", "rtpvp8pay"), ("h264", "rtph264pay"),
   ("vp9", "rtpvp9pay"), ("av1", "rtpav1pay")]

/-- Whether `pat` occurs as a contiguous subsequence of `l`. -/
def listHasSub (pat : List Char) : List Char → Bool
  | [] => pat.isEmpty
  | c :: rest => pat.isPrefixOf (c :: rest) || listHasSub pat rest

/-- Python's `sub in s` substring test. -/
def strHasSub (s sub : String) : Bool :=
  listHasSub sub.toList s.toList

/-- The factory filter of `find_best_encoder`:
`('encoder' in name or 'enc' in name) and 'encoder' in klass.lower()`
plus the SRC-pad-template caps intersection check. -/
def encoderMatches (target : String) (f : Factory) : Bool :=
  (strHasSub f.name "encoder" || strHasSub f.name "enc")
    && f.klassHasEncoder && f.srcCaps.contains target

/-- The filtered candidate list, in registry (discovery) order. -/
def encoderCandidates (registry : List Factory) (target : String) : List Factory :=
  registry.filter (encoderMatches target)

/-- Stable insertion step for a descending-by-rank sort: `f` is placed
before the first element of strictly smaller rank, so among equal ranks
the earlier-inserted element stays in front. -/
def insertByRankDesc (f : Factory) : List Factory → List Factory
  | [] => [f]
  | g :: gs => if g.rank ≤ f.rank then f :: g :: gs else g :: insertByRankDesc f gs

/-- Stable descending sort by rank, modelling Python's stable
`list.sort(key=rank, reverse=True)`. -/
def sortByRankDesc : List Factory → List Factory
  | [] => []
  | f :: fs => insertByRankDesc f (sortByRankDesc fs)

/-- `find_best_encoder` with the single recursive fallback call unfolded
away: unknown codec gives `(None, None)`; otherwise filter the registry,
stable-sort descending by rank, and return the head's name together with
the codec's payloader, or `(None, None)` when no candidate survives. -/
def find_best_encoder_nofb (registry : List Factory) (codec_name : String) :
    Option String × Option String :=
  match codec_caps.lookup codec_name with
  | none => (none, none)
  | some target =>
    match sortByRankDesc (encoderCandidates registry target) with
    | [] => (none, none)
    | best :: _ => (some best.name, payloader_map.lookup codec_name)

/-- `find_best_encoder` from `plugin.py`. When a known codec has no
candidate and is not `"vp8"`, the source makes one recursive call
`self.find_best_encoder('vp8')`; since that call's own empty-candidate
branch hits `codec_name == 'vp8'` and returns `(None, None)`, it equals
`find_best_encoder_nofb registry "vp8"` exactly. -/
def find_best_encoder (registry : List Factory) (codec_name : String) :
    Option String × Option String :=
  match codec_caps.lookup codec_name with
  | none => (none, none)
  | some target =>
    match sortByRankDesc (encoderCandidates registry target) with
    | [] =>
      if codec_name ≠ "vp8" then find_best_encoder_nofb registry "vp8"
      else (none, none)
    | best :: _ => (some best.name, payloader_map.lookup codec_name)

/-- Python's `str()` of the optional client id as interpolated by the
f-strings `f'encoder-{client_id}'` and `f'payloader-{client_id}'`:
`None` prints as `"None"`, so `client_id=None` and `client_id="None"`
produce the same element names — the model preserves that collision. -/
def pyStr : Option String → String
  | none => "None"
  | some s => s

/-- Names of the children of the `WebRTCWebSink` bin. In the source
these are plain strings: `"convert"` and `"tee"` from `setup_pipeline`;
generated names for the webrtcbin and queue created with name `None`
(GStreamer draws them from a monotone counter, modelled by
`autoCounter`, so they are always fresh); and the explicit per-client
names `'encoder-' + str(client_id)` and `'payloader-' + str(client_id)`.
The constructors mirror the collision structure of those strings
exactly: names built by different constructors never coincide (the
string forms have distinct prefixes), and two per-client names coincide
exactly when `str(client_id)` does. -/
inductive ChildName
  | convert
  | tee
  | webrtcbinAuto (n : Nat)
  | queueAuto (n : Nat)
  | encoderFor (clientStr : String)
  | payloaderFor (clientStr : String)
deriving Repr, DecidableEq

/-- The mutable fields of the `WebRTCWebSink` object that the embedded
methods read or write: the configured default codec, the `client_codecs`
dictionary, the number of requested (and not released) tee source pads,
the per-client branches currently linked off the tee, the names of the
bin's children (`gst_bin_add` refuses a duplicate name, and gst-python's
`Bin.add` override turns that refusal into a raised `Gst.AddError`), the
element-name generation counter, the `servers_started` flag and the two
server handles (`self.http_server`, `self.signaling`, modelled as "is
non-None"). -/
structure WebSinkState where
  video_codec : String
  client_codecs : List (String × String)
  teePadCount : Nat
  branches : List (Option String)
  binChildren : List ChildName
  autoCounter : Nat
  servers_started : Bool
  http_server : Bool
  signaling : Bool
deriving Repr, DecidableEq

/-- Python-dict insertion into an association list: an existing key is
overwritten in place, a new key is appended at the end. -/
def dictInsert (k v : String) : List (String × String) → List (String × String)
  | [] => [(k, v)]
  | (k', v') :: rest =>
    if k' = k then (k, v) :: rest else (k', v') :: dictInsert k v rest

/-- Oracle for the external GStreamer operations performed by
`create_webrtcbin`: whether each `Gst.ElementFactory.make`, the tee pad
request, and each link step succeeds, plus the element registry consulted
by `find_best_encoder`. -/
structure BuildEnv where
  registry : List Factory
  webrtcbinOk : Bool
  encoderMakeOk : Bool
  payloaderMakeOk : Bool
  queueMakeOk : Bool
  teePadOk : Bool
  linkTeeQueueOk : Bool
  linkQueueEncoderOk : Bool
  linkEncoderPayloaderOk : Bool
  linkPayloaderWebrtcbinOk : Bool
deriving Repr, DecidableEq

/-- How a call to `create_webrtcbin` ends: returning the new webrtcbin,
returning `None`, or raising an uncaught Python exception. -/
inductive Outcome
  | success
  | retNone
  | raised
deriving Repr, DecidableEq

/-- Observable element-instantiation and tee-pad events, in program
order. A `make` event records that `Gst.ElementFactory.make` was invoked
for that factory name. -/
inductive Ev
  | make (name : String)
  | requestPad
  | releasePad
deriving Repr, DecidableEq

/-- Result of a `create_webrtcbin` call: how it ended, the object state
it left behind, and the event trace it produced. -/
structure BuildResult where
  outcome : Outcome
  state : WebSinkState
  events : List Ev
deriving Repr, DecidableEq

/-- Lines 223-228: `codec_to_use` is the client's preference only when
both `client_id` and `codec_preference` are non-None, else the default. -/
def effectiveCodec (s : WebSinkState) (client_id codec_preference : Option String) :
    String :=
  match client_id, codec_preference with
  | some _, some pref => pref
  | _, _ => s.video_codec

/-- Lines 223-228: when both `client_id` and `codec_preference` are
non-None the preference is stored into `self.client_codecs`. -/
def recordPreference (s : WebSinkState) (client_id codec_preference : Option String) :
    WebSinkState :=
  match client_id, codec_preference with
  | some cid, some pref =>
    { s with client_codecs := dictInsert cid pref s.client_codecs }
  | _, _ => s

/-- Lines 233-237: encoder/payloader resolution with the caller-level
fallback — if the first `find_best_encoder` result has a `None`
component, `find_best_encoder` is re-run on the configured default. -/
def selectEncPay (env : BuildEnv) (s : WebSinkState)
    (client_id codec_preference : Option String) : Option String × Option String :=
  let sel := find_best_encoder env.registry (effectiveCodec s client_id codec_preference)
  if sel.1.isNone || sel.2.isNone then
    find_best_encoder env.registry s.video_codec
  else sel

/-- Lines 279-405 of `create_webrtcbin`: request a tee source pad and
link tee → queue → encoder → payloader → webrtcbin, checking every step.
`s5` is the state after all four elements were added to the bin under
the child names `wname`/`qname`/`ename`/`pname`. Any failure removes the
four children (in the source's per-branch removal order) and, once the
pad was acquired, releases it; success keeps the pad and records the
branch. -/
def linkBranch (env : BuildEnv) (s5 : WebSinkState)
    (wname qname ename pname : ChildName) (client_id : Option String)
    (evs : List Ev) : BuildResult :=
  if !env.teePadOk then
    -- lines 283-288: remove queue, encoder, payloader, webrtcbin
    ⟨.retNone,
     { s5 with binChildren :=
         (((s5.binChildren.erase qname).erase ename).erase pname).erase wname },
     evs⟩
  else
    let s6 := { s5 with teePadCount := s5.teePadCount + 1 }
    let evs2 := evs ++ [Ev.requestPad]
    if !env.linkTeeQueueOk then
      -- lines 298-305: release the pad, remove encoder, payloader, queue,
      -- webrtcbin
      ⟨.retNone,
       { s6 with teePadCount := s6.teePadCount - 1,
                 binChildren :=
           (((s6.binChildren.erase ename).erase pname).erase qname).erase wname },
       evs2 ++ [.releasePad]⟩
    else if !env.linkQueueEncoderOk then
      -- lines 312-321: release the pad, remove queue, encoder, payloader,
      -- webrtcbin
      ⟨.retNone,
       { s6 with teePadCount := s6.teePadCount - 1,
                 binChildren :=
           (((s6.binChildren.erase qname).erase ename).erase pname).erase wname },
       evs2 ++ [.releasePad]⟩
    else if !env.linkEncoderPayloaderOk then
      ⟨.retNone,
       { s6 with teePadCount := s6.teePadCount - 1,
                 binChildren :=
           (((s6.binChildren.erase qname).erase ename).erase pname).erase wname },
       evs2 ++ [.releasePad]⟩
    else if !env.linkPayloaderWebrtcbinOk then
      ⟨.retNone,
       { s6 with teePadCount := s6.teePadCount - 1,
                 binChildren :=
           (((s6.binChildren.erase qname).erase ename).erase pname).erase wname },
       evs2 ++ [.releasePad]⟩
    else
      ⟨.success, { s6 with branches := s6.branches ++ [client_id] }, evs2⟩

/-- Lines 261-277 of `create_webrtcbin`: add the webrtcbin to the bin
(line 261, its generated name `wname` is fresh so the `gst_bin_add`
name-uniqueness check passes), make and configure the queue (line 264;
line 265 calls `queue.set_property` BEFORE the line-266 `if not queue`
guard, so a failed creation raises `AttributeError` and the guard is
dead), add the queue under a fresh generated name (line 273), then add
the encoder and payloader under the explicit names
`encoder-{client_id}` / `payloader-{client_id}` (lines 276-277), where
gst-python's `Bin.add` raises `Gst.AddError` whenever `gst_bin_add`
refuses a duplicate child name; finally hand off to the linking phase.
`s1` is the state after the preference was recorded. -/
def addAndLink (env : BuildEnv) (s1 : WebSinkState) (wname : ChildName)
    (client_id : Option String) (encoder_name payloader_name : String) :
    BuildResult :=
  let s2 := { s1 with binChildren := s1.binChildren ++ [wname] }
  let evs := [Ev.make "webrtcbin", Ev.make encoder_name,
              Ev.make payloader_name, Ev.make "queue"]
  if !env.queueMakeOk then
    -- line 265: `queue.set_property('leaky', 2)` on None raises
    ⟨.raised, s2, evs⟩
  else if !env.queueMakeOk then
    -- line 266: the source's `if not queue: return None` guard, dead
    ⟨.retNone, s2, evs⟩
  else
    let qname := ChildName.queueAuto s2.autoCounter
    let s3 := { s2 with autoCounter := s2.autoCounter + 1,
                        binChildren := s2.binChildren ++ [qname] }
    let ename := ChildName.encoderFor (pyStr client_id)
    let pname := ChildName.payloaderFor (pyStr client_id)
    if ename ∈ s3.binChildren then
      -- line 276: self.add(encoder) raises Gst.AddError on a duplicate
      ⟨.raised, s3, evs⟩
    else
      let s4 := { s3 with binChildren := s3.binChildren ++ [ename] }
      if pname ∈ s4.binChildren then
        -- line 277: self.add(payloader), same uniqueness check
        ⟨.raised, s4, evs⟩
      else
        linkBranch env { s4 with binChildren := s4.binChildren ++ [pname] }
          wname qname ename pname client_id evs

/-- `create_webrtcbin` (lines 209-405). Control flow, state changes and
event trace mirror the source: the webrtcbin is made first (with name
`None`, receiving a fresh generated name); the codec preference is
recorded; encoder/payloader are resolved (with one fallback to the
default codec) and instantiated with the explicit names
`encoder-{client_id}` / `payloader-{client_id}`; the webrtcbin is added
to the bin (line 261); the queue is made and configured —
`queue.set_property` is called BEFORE the `if not queue` guard, so a
failed queue creation raises `AttributeError` and the guard's
`return None` is dead code; the queue, encoder and payloader are added
(lines 273, 276, 277), where gst-python's `Bin.add` raises `Gst.AddError`
when `gst_bin_add` refuses a duplicate child name — which happens for
`encoder-{client_id}` whenever the same client id already has a live
branch; then a tee source pad is requested and the four links are made,
each failure path removing the four elements, releasing the tee pad and
returning `None` (`self.remove` on a non-child, as in the early failure
paths, only warns). On full success the branch is recorded and the tee
pad kept. The `client_codecs` entry written early is never removed on
any failure path. -/
def create_webrtcbin (env : BuildEnv) (s : WebSinkState)
    (client_id codec_preference : Option String) : BuildResult :=
  if !env.webrtcbinOk then
    ⟨.retNone, s, [.make "webrtcbin"]⟩
  else
    -- line 214: the webrtcbin is created with name None and receives a
    -- fresh generated name from the counter
    let wname := ChildName.webrtcbinAuto s.autoCounter
    let s0 := { s with autoCounter := s.autoCounter + 1 }
    let s1 := recordPreference s0 client_id codec_preference
    match selectEncPay env s client_id codec_preference with
    | (some encoder_name, some payloader_name) =>
      if !env.encoderMakeOk then
        -- line 249: self.remove(webrtcbin) on the not-yet-added element warns
        ⟨.retNone, s1, [.make "webrtcbin", .make encoder_name]⟩
      else if !env.payloaderMakeOk then
        ⟨.retNone, s1, [.make "webrtcbin", .make encoder_name, .make payloader_name]⟩
      else
        addAndLink env s1 wname client_id encoder_name payloader_name
    | _ =>
      ⟨.retNone, s1, [.make "webrtcbin"]⟩

/-- `Gst.StateChangeReturn` values relevant to `do_change_state`. -/
inductive StateChangeReturn
  | SUCCESS
  | FAILURE
deriving Repr, DecidableEq

/-- The `Gst.StateChange` transitions of the element state machine. -/
inductive Transition
  | NULL_TO_READY
  | READY_TO_PAUSED
  | PAUSED_TO_PLAYING
  | PLAYING_TO_PAUSED
  | PAUSED_TO_READY
  | READY_TO_NULL
deriving Repr, DecidableEq

/-- Oracle for `start_servers`: whether binding/starting the HTTP and
signaling servers succeeds (a failure is raised as a Python exception
and caught in `do_change_state`). -/
structure ServerEnv where
  startOk : Bool
deriving Repr, DecidableEq

/-- Observable server lifecycle events. -/
inductive SrvEv
  | startServers
  | httpShutdown
  | signalingStop
deriving Repr, DecidableEq

/-- Result of a `do_change_state` call. -/
structure ChangeResult where
  ret : StateChangeReturn
  state : WebSinkState
  events : List SrvEv
deriving Repr, DecidableEq

/-- `stop_servers` (lines 502-512): shut down the HTTP server if present,
stop the signaling server if present; branches and tee pads are not
touched. -/
def stop_servers (s : WebSinkState) : WebSinkState × List SrvEv :=
  let p1 : WebSinkState × List SrvEv :=
    if s.http_server then ({ s with http_server := false }, [SrvEv.httpShutdown])
    else (s, [])
  let p2 : WebSinkState × List SrvEv :=
    if p1.1.signaling then ({ p1.1 with signaling := false }, [SrvEv.signalingStop])
    else (p1.1, [])
  (p2.1, p1.2 ++ p2.2)

/-- `do_change_state` (lines 447-464). `NULL_TO_READY` starts the servers
only when `servers_started` is false, returning `FAILURE` (with
`servers_started` left false) when `start_servers` raises;
`READY_TO_NULL` stops them only when `servers_started` is true. All other
transitions fall through to the base class, modelled as `SUCCESS` with no
state change. -/
def do_change_state (env : ServerEnv) (s : WebSinkState) (t : Transition) :
    ChangeResult :=
  match t with
  | .NULL_TO_READY =>
    if !s.servers_started then
      if env.startOk then
        ⟨.SUCCESS,
         { s with http_server := true, signaling := true, servers_started := true },
         [.startServers]⟩
      else
        ⟨.FAILURE, s, []⟩
    else
      ⟨.SUCCESS, s, []⟩
  | .READY_TO_NULL =>
    if s.servers_started then
      let p := stop_servers s
      ⟨.SUCCESS, { p.1 with servers_started := false }, p.2⟩
    else
      ⟨.SUCCESS, s, []⟩
  | _ => ⟨.SUCCESS, s, []⟩

/-- Specification-side selector: the first element of maximal rank, in
list order. A later element replaces the current best only when its rank
is strictly larger, so among equal ranks the earliest element wins. -/
def firstArgmax : List Factory → Option Factory
  | [] => none
  | f :: fs =>
    match firstArgmax fs with
    | none => some f
    | some m => some (if f.rank < m.rank then m else f)

/-! Concrete fixtures used by witnesses and counterexamples. -/

/-- Registry with one low-rank vp8 encoder and two equal-rank (200) vp8
encoders; `benc` is registered before `cenc`. -/
def tieRegistry : List Factory :=
  [⟨"aomenc", true, 100, ["video/x-vp8"]⟩,
   ⟨"benc", true, 200, ["video/x-vp8"]⟩,
   ⟨"cenc", true, 200, ["video/x-vp8"]⟩]

/-- A vp8 encoder factory (rank 128), as `vp8enc` registers itself. -/
def vp8Factory : Factory := ⟨"vp8enc", true, 128, ["video/x-vp8"]⟩

/-- An h264 encoder factory (rank 256), as `x264enc` registers itself. -/
def x264Factory : Factory := ⟨"x264enc", true, 256, ["video/x-h264"]⟩

/-- A registry holding one vp8 and one h264 encoder. -/
def regVp8H264 : List Factory := [vp8Factory, x264Factory]

/-- Fresh sink state right after `__init__`, default codec `vp8`:
`setup_pipeline` added the children named `convert` and `tee`. -/
def initState : WebSinkState :=
  ⟨"vp8", [], 0, [], [.convert, .tee], 0, false, false, false⟩

/-- Fresh sink state with the default codec property set to `h264`. -/
def initStateH264 : WebSinkState :=
  ⟨"h264", [], 0, [], [.convert, .tee], 0, false, false, false⟩

/-- Build environment in which every external operation succeeds and the
registry holds only the vp8 encoder. -/
def envAllOk : BuildEnv := ⟨[vp8Factory], true, true, true, true, true, true, true, true, true⟩

/-- Build environment with both encoders available and every external
operation succeeding. -/
def envBoth : BuildEnv := ⟨regVp8H264, true, true, true, true, true, true, true, true, true⟩

/-- As `envAllOk` but the tee refuses to hand out a request pad. -/
def envNoTeePad : BuildEnv := { envAllOk with teePadOk := false }

/-- As `envAllOk` but `Gst.ElementFactory.make('queue', None)` fails. -/
def envNoQueue : BuildEnv := { envAllOk with queueMakeOk := false }

/-- The sink state after one fully successful build for client "A": one
tee tap, one branch, and the children `encoder-A` / `payloader-A` in the
bin. -/
def stateAfterFirstBuild : WebSinkState :=
  (create_webrtcbin envAllOk initState (some "A") (some "vp8")).state

/-! Helper lemmas about the embedded operations. -/

theorem recordPreference_branches (s : WebSinkState) (cid pref : Option String) :
    (recordPreference s cid pref).branches = s.branches := by
  unfold recordPreference
  cases cid <;> cases pref <;> rfl

theorem recordPreference_teePadCount (s : WebSinkState) (cid pref : Option String) :
    (recordPreference s cid pref).teePadCount = s.teePadCount := by
  unfold recordPreference
  cases cid <;> cases pref <;> rfl

theorem recordPreference_some (s : WebSinkState) (cid pref : String) :
    recordPreference s (some cid) (some pref)
      = { s with client_codecs := dictInsert cid pref s.client_codecs } := rfl

theorem recordPreference_binChildren (s : WebSinkState) (cid pref : Option String) :
    (recordPreference s cid pref).binChildren = s.binChildren := by
  unfold recordPreference
  cases cid <;> cases pref <;> rfl

/-- `recordPreference` only touches `client_codecs`, so it commutes with
updating the name counter. -/
theorem recordPreference_counter_comm (s : WebSinkState) (n : Nat)
    (cid pref : Option String) :
    recordPreference { s with autoCounter := n } cid pref
      = { recordPreference s cid pref with autoCounter := n } := by
  unfold recordPreference
  cases cid <;> cases pref <;> rfl

/-- A successful linking phase acquired exactly one tee pad, recorded
exactly one branch, and kept the four children. -/
theorem linkBranch_success_eq (env : BuildEnv) (s5 : WebSinkState)
    (wname qname ename pname : ChildName) (cid : Option String) (evs : List Ev)
    (h : (linkBranch env s5 wname qname ename pname cid evs).outcome = .success) :
    linkBranch env s5 wname qname ename pname cid evs =
      ⟨.success,
       { s5 with teePadCount := s5.teePadCount + 1,
                 branches := s5.branches ++ [cid] },
       evs ++ [Ev.requestPad]⟩ := by
  simp only [linkBranch] at h ⊢
  split_ifs at h ⊢
  rfl

/-- No path of the linking phase touches `client_codecs`. -/
theorem linkBranch_clientCodecs (env : BuildEnv) (s5 : WebSinkState)
    (wname qname ename pname : ChildName) (cid : Option String) (evs : List Ev) :
    (linkBranch env s5 wname qname ename pname cid evs).state.client_codecs
      = s5.client_codecs := by
  simp only [linkBranch]
  split_ifs <;> rfl

/-- A successful add-and-link phase appended the four child names in
order, consumed one generated name, acquired one tee pad and recorded
one branch. -/
theorem addAndLink_success_eq (env : BuildEnv) (s1 : WebSinkState)
    (wname : ChildName) (cid : Option String) (en pn : String)
    (h : (addAndLink env s1 wname cid en pn).outcome = .success) :
    addAndLink env s1 wname cid en pn =
      ⟨.success,
       { s1 with teePadCount := s1.teePadCount + 1,
                 branches := s1.branches ++ [cid],
                 binChildren := (((s1.binChildren ++ [wname])
                   ++ [ChildName.queueAuto s1.autoCounter])
                   ++ [ChildName.encoderFor (pyStr cid)])
                   ++ [ChildName.payloaderFor (pyStr cid)],
                 autoCounter := s1.autoCounter + 1 },
       [.make "webrtcbin", .make en, .make pn, .make "queue", .requestPad]⟩ := by
  simp only [addAndLink] at h ⊢
  split_ifs at h ⊢ with h1 h2 h3
  rw [linkBranch_success_eq _ _ _ _ _ _ _ _ h]
  rfl

/-- No path of the add-and-link phase touches `client_codecs`. -/
theorem addAndLink_clientCodecs (env : BuildEnv) (s1 : WebSinkState)
    (wname : ChildName) (cid : Option String) (en pn : String) :
    (addAndLink env s1 wname cid en pn).state.client_codecs
      = s1.client_codecs := by
  simp only [addAndLink]
  split_ifs <;> first | rfl | (rw [linkBranch_clientCodecs])

/-- When the client's encoder child name is already in the bin, the
add-and-link phase raises `Gst.AddError` at `self.add(encoder)` before
any tee pad is requested: it cannot succeed, and branches and tap count
are untouched. -/
theorem addAndLink_live_raises (env : BuildEnv) (s1 : WebSinkState)
    (wname : ChildName) (cid : Option String) (en pn : String)
    (h : ChildName.encoderFor (pyStr cid) ∈ s1.binChildren) :
    (addAndLink env s1 wname cid en pn).outcome ≠ .success
    ∧ (addAndLink env s1 wname cid en pn).state.branches = s1.branches
    ∧ (addAndLink env s1 wname cid en pn).state.teePadCount = s1.teePadCount := by
  have hm : ChildName.encoderFor (pyStr cid)
      ∈ (s1.binChildren ++ [wname]) ++ [ChildName.queueAuto s1.autoCounter] :=
    List.mem_append_left _ (List.mem_append_left _ h)
  simp only [addAndLink]
  split_ifs with h1 <;> exact ⟨(fun hc => nomatch hc), rfl, rfl⟩

/-- Complete characterisation of a successful `create_webrtcbin` call:
the selection resolved to some encoder/payloader pair, the state gained
exactly one tee pad and one branch besides the recorded preference, the
bin gained the four children (the generated webrtcbin and queue names
plus the two per-client names), the counter advanced by two, and the
event trace is webrtcbin, encoder, payloader, queue, pad request. -/
theorem create_success_eq (env : BuildEnv) (s : WebSinkState) (cid pref : Option String)
    (h : (create_webrtcbin env s cid pref).outcome = .success) :
    ∃ e p, selectEncPay env s cid pref = (some e, some p)
    ∧ create_webrtcbin env s cid pref =
        ⟨.success,
         { recordPreference s cid pref with
             teePadCount := (recordPreference s cid pref).teePadCount + 1,
             branches := (recordPreference s cid pref).branches ++ [cid],
             binChildren := ((((recordPreference s cid pref).binChildren
               ++ [ChildName.webrtcbinAuto s.autoCounter])
               ++ [ChildName.queueAuto (s.autoCounter + 1)])
               ++ [ChildName.encoderFor (pyStr cid)])
               ++ [ChildName.payloaderFor (pyStr cid)],
             autoCounter := s.autoCounter + 2 },
         [.make "webrtcbin", .make e, .make p, .make "queue", .requestPad]⟩ := by
  cases hw : env.webrtcbinOk with
  | false => simp [create_webrtcbin, hw] at h
  | true =>
    cases hsel : selectEncPay env s cid pref with
    | mk o1 o2 =>
      cases o1 with
      | none => simp [create_webrtcbin, hw, hsel] at h
      | some e =>
        cases o2 with
        | none => simp [create_webrtcbin, hw, hsel] at h
        | some p =>
          refine ⟨e, p, rfl, ?_⟩
          cases hE : env.encoderMakeOk with
          | false => simp [create_webrtcbin, hw, hsel, hE] at h
          | true =>
            cases hP : env.payloaderMakeOk with
            | false => simp [create_webrtcbin, hw, hsel, hE, hP] at h
            | true =>
              simp only [create_webrtcbin, hw, hsel, hE, hP, Bool.not_true,
                Bool.false_eq_true, if_false] at h ⊢
              rw [addAndLink_success_eq _ _ _ _ _ _ h]
              rw [recordPreference_counter_comm]

/-- Whenever the webrtcbin itself was created, every path through
`create_webrtcbin` — success, returned `None`, or raised — leaves
`client_codecs` exactly as `recordPreference` wrote it: no failure path
removes the entry. -/
theorem create_clientCodecs (env : BuildEnv) (s : WebSinkState) (cid pref : Option String)
    (hw : env.webrtcbinOk = true) :
    (create_webrtcbin env s cid pref).state.client_codecs
      = (recordPreference s cid pref).client_codecs := by
  cases hsel : selectEncPay env s cid pref with
  | mk o1 o2 =>
    cases o1 with
    | none =>
      simp [create_webrtcbin, hw, hsel, recordPreference_counter_comm]
    | some e =>
      cases o2 with
      | none =>
        simp [create_webrtcbin, hw, hsel, recordPreference_counter_comm]
      | some p =>
        cases hE : env.encoderMakeOk with
        | false =>
          simp [create_webrtcbin, hw, hsel, hE, recordPreference_counter_comm]
        | true =>
          cases hP : env.payloaderMakeOk with
          | false =>
            simp [create_webrtcbin, hw, hsel, hE, hP, recordPreference_counter_comm]
          | true =>
            simp [create_webrtcbin, hw, hsel, hE, hP, addAndLink_clientCodecs,
              recordPreference_counter_comm]

theorem firstArgmax_eq_none {l : List Factory} :
    firstArgmax l = none ↔ l = [] := by
  cases l with
  | nil => simp [firstArgmax]
  | cons f fs =>
    simp only [firstArgmax]
    cases firstArgmax fs <;> simp

theorem insertByRankDesc_head (f : Factory) (l : List Factory) :
    (insertByRankDesc f l).head? =
      some (match l.head? with
            | none => f
            | some m => if m.rank ≤ f.rank then f else m) := by
  cases l with
  | nil => rfl
  | cons m rest =>
    simp only [insertByRankDesc, List.head?]
    split_ifs <;> simp

/-- The head of the stable descending sort is the first element of
maximal rank of the input list. -/
theorem sortByRankDesc_head (l : List Factory) :
    (sortByRankDesc l).head? = firstArgmax l := by
  induction l with
  | nil => rfl
  | cons f fs ih =>
    simp only [sortByRankDesc, firstArgmax, insertByRankDesc_head, ih]
    cases hm : firstArgmax fs with
    | none => rfl
    | some m =>
      simp only
      rcases Nat.lt_or_ge f.rank m.rank with hlt | hge
      · simp [hlt, Nat.not_le.2 hlt]
      · simp [Nat.not_lt.2 hge, hge]

/-- `firstArgmax` indeed returns a member of maximal rank such that every
element strictly before it in the list has strictly smaller rank. -/
theorem firstArgmax_spec (l : List Factory) (m : Factory)
    (h : firstArgmax l = some m) :
    m ∈ l ∧ (∀ x ∈ l, x.rank ≤ m.rank)
    ∧ ∃ l₁ l₂, l = l₁ ++ m :: l₂ ∧ ∀ x ∈ l₁, x.rank < m.rank := by
  induction l generalizing m with
  | nil => simp [firstArgmax] at h
  | cons f fs ih =>
    cases hm : firstArgmax fs with
    | none =>
      have hfs : fs = [] := firstArgmax_eq_none.1 hm
      subst hfs
      simp only [firstArgmax] at h
      have hmf : m = f := by
        simpa using h.symm
      subst hmf
      exact ⟨by simp, by simp, [], [], by simp, by simp⟩
    | some b =>
      simp only [firstArgmax, hm] at h
      obtain ⟨hb₁, hb₂, l₁, l₂, hdec, hstrict⟩ := ih b hm
      by_cases hlt : f.rank < b.rank
      · have hmb : m = b := by simpa [hlt] using h.symm
        subst hmb
        refine ⟨List.mem_cons_of_mem _ hb₁, ?_, f :: l₁, l₂, by simp [hdec], ?_⟩
        · intro x hx
          rcases List.mem_cons.1 hx with hx | hx
          · exact hx ▸ Nat.le_of_lt hlt
          · exact hb₂ x hx
        · intro x hx
          rcases List.mem_cons.1 hx with hx | hx
          · exact hx ▸ hlt
          · exact hstrict x hx
      · have hmf : m = f := by simpa [hlt] using h.symm
        subst hmf
        refine ⟨List.mem_cons_self _ _, ?_, [], fs, by simp, by simp⟩
        intro x hx
        rcases List.mem_cons.1 hx with hx | hx
        · exact hx ▸ Nat.le_refl _
        · exact Nat.le_trans (hb₂ x hx) (Nat.not_lt.1 hlt)

/-! Claim theorems. -/

/-- C1: a branch build for client "A" with preference "vp8" that fails at
tee-pad acquisition returns `None` with the tee tap count restored, but
the `client_codecs` entry written at the start of the attempt is NOT
removed: the table grew from `[]` to `[("A", "vp8")]`, contradicting the
claimed full rollback of the ClientCodecTable. -/
theorem c1_failed_build_keeps_codec_entry :
    (create_webrtcbin envNoTeePad initState (some "A") (some "vp8")).outcome = .retNone
    ∧ (create_webrtcbin envNoTeePad initState (some "A") (some "vp8")).state.teePadCount
        = initState.teePadCount
    ∧ initState.client_codecs = []
    ∧ (create_webrtcbin envNoTeePad initState (some "A") (some "vp8")).state.client_codecs
        = [("A", "vp8")] := by
  decide

/-- C2 counterexample: with the default codec set to `h264` (for which an
encoder exists), a request for the known-but-unsupported codec `vp9`
falls back to the hardcoded `vp8` inside `find_best_encoder` — the build
succeeds instantiating `vp8enc`, never consulting the configured default
`h264` — refuting "falls back to the configured default codec (the
video-codec property)". -/
theorem c2_counterexample :
    initStateH264.video_codec = "h264"
    ∧ find_best_encoder_nofb regVp8H264 "h264" = (some "x264enc", some "rtph264pay")
    ∧ find_best_encoder regVp8H264 "vp9" = (some "vp8enc", some "rtpvp8pay")
    ∧ (create_webrtcbin envBoth initStateH264 (some "A") (some "vp9")).outcome = .success
    ∧ (create_webrtcbin envBoth initStateH264 (some "A") (some "vp9")).events
        = [.make "webrtcbin", .make "vp8enc", .make "rtpvp8pay", .make "queue",
           .requestPad] := by
  decide

/-- C2 (amended): a known codec with no matching encoder first falls back
to the hardcoded `vp8` inside `find_best_encoder` (a single unfolding,
no further recursion); if that and the caller's one re-query with the
configured default both fail, `create_webrtcbin` returns `None` with tee
tap count and branches unchanged — but the recorded preference stays in
`client_codecs`, so the failure is not entirely side-effect free. -/
theorem c2_fallback_behaviour (env : BuildEnv) (s : WebSinkState)
    (cid pref target : String)
    (hw : env.webrtcbinOk = true)
    (hknown : codec_caps.lookup pref = some target)
    (hne : pref ≠ "vp8")
    (hempty : encoderCandidates env.registry target = []) :
    find_best_encoder env.registry pref = find_best_encoder_nofb env.registry "vp8"
    ∧ (find_best_encoder_nofb env.registry "vp8" = (none, none) →
       find_best_encoder env.registry s.video_codec = (none, none) →
       (create_webrtcbin env s (some cid) (some pref)).outcome = .retNone
       ∧ (create_webrtcbin env s (some cid) (some pref)).state.teePadCount = s.teePadCount
       ∧ (create_webrtcbin env s (some cid) (some pref)).state.branches = s.branches
       ∧ (create_webrtcbin env s (some cid) (some pref)).state.client_codecs
           = dictInsert cid pref s.client_codecs) := by
  have hfb : find_best_encoder env.registry pref
      = find_best_encoder_nofb env.registry "vp8" := by
    simp only [find_best_encoder, hknown, hempty, sortByRankDesc]
    simp [hne]
  refine ⟨hfb, fun h1 h2 => ?_⟩
  have hsel : selectEncPay env s (some cid) (some pref) = (none, none) := by
    unfold selectEncPay effectiveCodec
    rw [hfb, h1]
    simpa using h2
  constructor
  · simp [create_webrtcbin, hw, hsel]
  constructor
  · simp [create_webrtcbin, hw, hsel, recordPreference_teePadCount]
  constructor
  · simp [create_webrtcbin, hw, hsel, recordPreference_branches]
  · simp [create_webrtcbin, hw, hsel, recordPreference_some]

/-- C2 witness: instantiates `c2_fallback_behaviour` on a registry with
no encoders at all and the default codec `h264`, reaching the
side-effect-laden failure. -/
theorem c2_fallback_witness :
    find_best_encoder [] "vp9" = find_best_encoder_nofb [] "vp8"
    ∧ (find_best_encoder_nofb [] "vp8" = (none, none) →
       find_best_encoder [] "h264" = (none, none) →
       (create_webrtcbin ⟨[], true, true, true, true, true, true, true, true, true⟩
          initStateH264 (some "A") (some "vp9")).outcome = .retNone
       ∧ (create_webrtcbin ⟨[], true, true, true, true, true, true, true, true, true⟩
            initStateH264 (some "A") (some "vp9")).state.teePadCount
           = initStateH264.teePadCount
       ∧ (create_webrtcbin ⟨[], true, true, true, true, true, true, true, true, true⟩
            initStateH264 (some "A") (some "vp9")).state.branches
           = initStateH264.branches
       ∧ (create_webrtcbin ⟨[], true, true, true, true, true, true, true, true, true⟩
            initStateH264 (some "A") (some "vp9")).state.client_codecs
           = dictInsert "A" "vp9" initStateH264.client_codecs) :=
  c2_fallback_behaviour ⟨[], true, true, true, true, true, true, true, true, true⟩
    initStateH264 "A" "vp9" "video/x-vp9" rfl (by decide) (by decide) rfl

/-- C3 counterexample: deactivating (`READY_TO_NULL`) while one branch
and one tee tap exist stops the servers but leaves the tap count at 1 and
the branch alive — refuting "zero live Branches remain (tee tap count
is 0)". -/
theorem c3_counterexample :
    (do_change_state ⟨true⟩
        ⟨"vp8", [("A", "vp8")], 1, [some "A"],
          [.convert, .tee, .webrtcbinAuto 0, .queueAuto 1, .encoderFor "A",
           .payloaderFor "A"], 2, true, true, true⟩
        .READY_TO_NULL).ret = .SUCCESS
    ∧ (do_change_state ⟨true⟩
        ⟨"vp8", [("A", "vp8")], 1, [some "A"],
          [.convert, .tee, .webrtcbinAuto 0, .queueAuto 1, .encoderFor "A",
           .payloaderFor "A"], 2, true, true, true⟩
        .READY_TO_NULL).state.teePadCount = 1
    ∧ (do_change_state ⟨true⟩
        ⟨"vp8", [("A", "vp8")], 1, [some "A"],
          [.convert, .tee, .webrtcbinAuto 0, .queueAuto 1, .encoderFor "A",
           .payloaderFor "A"], 2, true, true, true⟩
        .READY_TO_NULL).state.branches = [some "A"] := by
  decide

/-- C3 (amended): the `READY_TO_NULL` transition with servers started
shuts down the HTTP and signaling servers and clears `servers_started`,
but tears down no Branch: the tee tap count, the branch list and the
`client_codecs` table are all left exactly as they were. -/
theorem c3_deactivate_keeps_branches (env : ServerEnv) (s : WebSinkState)
    (h : s.servers_started = true) :
    (do_change_state env s .READY_TO_NULL).ret = .SUCCESS
    ∧ (do_change_state env s .READY_TO_NULL).state.servers_started = false
    ∧ (do_change_state env s .READY_TO_NULL).state.http_server = false
    ∧ (do_change_state env s .READY_TO_NULL).state.signaling = false
    ∧ (do_change_state env s .READY_TO_NULL).state.teePadCount = s.teePadCount
    ∧ (do_change_state env s .READY_TO_NULL).state.branches = s.branches
    ∧ (do_change_state env s .READY_TO_NULL).state.client_codecs = s.client_codecs := by
  cases hh : s.http_server <;> cases hsg : s.signaling <;>
    simp [do_change_state, stop_servers, h, hh, hsg]

/-- C3 witness: the amended deactivation behaviour evaluated on a state
with one live branch. -/
theorem c3_deactivate_witness :
    (do_change_state ⟨true⟩
        ⟨"vp8", [("A", "vp8")], 1, [some "A"],
          [.convert, .tee, .webrtcbinAuto 0, .queueAuto 1, .encoderFor "A",
           .payloaderFor "A"], 2, true, true, true⟩
        .READY_TO_NULL).ret = .SUCCESS
    ∧ (do_change_state ⟨true⟩
        ⟨"vp8", [("A", "vp8")], 1, [some "A"],
          [.convert, .tee, .webrtcbinAuto 0, .queueAuto 1, .encoderFor "A",
           .payloaderFor "A"], 2, true, true, true⟩
        .READY_TO_NULL).state.servers_started = false
    ∧ (do_change_state ⟨true⟩
        ⟨"vp8", [("A", "vp8")], 1, [some "A"],
          [.convert, .tee, .webrtcbinAuto 0, .queueAuto 1, .encoderFor "A",
           .payloaderFor "A"], 2, true, true, true⟩
        .READY_TO_NULL).state.http_server = false
    ∧ (do_change_state ⟨true⟩
        ⟨"vp8", [("A", "vp8")], 1, [some "A"],
          [.convert, .tee, .webrtcbinAuto 0, .queueAuto 1, .encoderFor "A",
           .payloaderFor "A"], 2, true, true, true⟩
        .READY_TO_NULL).state.signaling = false
    ∧ (do_change_state ⟨true⟩
        ⟨"vp8", [("A", "vp8")], 1, [some "A"],
          [.convert, .tee, .webrtcbinAuto 0, .queueAuto 1, .encoderFor "A",
           .payloaderFor "A"], 2, true, true, true⟩
        .READY_TO_NULL).state.teePadCount
        = (⟨"vp8", [("A", "vp8")], 1, [some "A"],
          [.convert, .tee, .webrtcbinAuto 0, .queueAuto 1, .encoderFor "A",
           .payloaderFor "A"], 2, true, true, true⟩ : WebSinkState).teePadCount
    ∧ (do_change_state ⟨true⟩
        ⟨"vp8", [("A", "vp8")], 1, [some "A"],
          [.convert, .tee, .webrtcbinAuto 0, .queueAuto 1, .encoderFor "A",
           .payloaderFor "A"], 2, true, true, true⟩
        .READY_TO_NULL).state.branches
        = (⟨"vp8", [("A", "vp8")], 1, [some "A"],
          [.convert, .tee, .webrtcbinAuto 0, .queueAuto 1, .encoderFor "A",
           .payloaderFor "A"], 2, true, true, true⟩ : WebSinkState).branches
    ∧ (do_change_state ⟨true⟩
        ⟨"vp8", [("A", "vp8")], 1, [some "A"],
          [.convert, .tee, .webrtcbinAuto 0, .queueAuto 1, .encoderFor "A",
           .payloaderFor "A"], 2, true, true, true⟩
        .READY_TO_NULL).state.client_codecs
        = (⟨"vp8", [("A", "vp8")], 1, [some "A"],
          [.convert, .tee, .webrtcbinAuto 0, .queueAuto 1, .encoderFor "A",
           .payloaderFor "A"], 2, true, true, true⟩ : WebSinkState).client_codecs :=
  c3_deactivate_keeps_branches ⟨true⟩
    ⟨"vp8", [("A", "vp8")], 1, [some "A"],
          [.convert, .tee, .webrtcbinAuto 0, .queueAuto 1, .encoderFor "A",
           .payloaderFor "A"], 2, true, true, true⟩ rfl

/-- C4: at most one Branch per client id. A successful build for a
client id leaves that client's `encoder-{client_id}` child name in the
bin (and appends exactly one branch); and any build request for a client
id whose encoder child name is already in the bin cannot succeed —
`self.add(encoder)` at plugin.py:276 hits `gst_bin_add`'s child-name
uniqueness check and gst-python raises `Gst.AddError` — so no second tee
tap is acquired and no second Branch is created for that client. -/
theorem c4_at_most_one_branch_per_client (env : BuildEnv) (s : WebSinkState)
    (cid pref : Option String) :
    ((create_webrtcbin env s cid pref).outcome = .success →
       ChildName.encoderFor (pyStr cid)
           ∈ (create_webrtcbin env s cid pref).state.binChildren
       ∧ (create_webrtcbin env s cid pref).state.branches = s.branches ++ [cid])
    ∧ (ChildName.encoderFor (pyStr cid) ∈ s.binChildren →
       (create_webrtcbin env s cid pref).outcome ≠ .success
       ∧ (create_webrtcbin env s cid pref).state.branches = s.branches
       ∧ (create_webrtcbin env s cid pref).state.teePadCount = s.teePadCount) := by
  constructor
  · intro h
    obtain ⟨e, p, hsel, heq⟩ := create_success_eq env s cid pref h
    rw [heq]
    exact ⟨by simp, by simp [recordPreference_branches]⟩
  · intro hlive
    cases hw : env.webrtcbinOk with
    | false => simp [create_webrtcbin, hw]
    | true =>
      have hlive1 : ChildName.encoderFor (pyStr cid)
          ∈ (recordPreference { s with autoCounter := s.autoCounter + 1 }
              cid pref).binChildren := by
        rw [recordPreference_binChildren]
        exact hlive
      cases hsel : selectEncPay env s cid pref with
      | mk o1 o2 =>
        cases o1 with
        | none =>
          simp [create_webrtcbin, hw, hsel, recordPreference_branches,
            recordPreference_teePadCount]
        | some e =>
          cases o2 with
          | none =>
            simp [create_webrtcbin, hw, hsel, recordPreference_branches,
              recordPreference_teePadCount]
          | some p =>
            cases hE : env.encoderMakeOk with
            | false =>
              simp [create_webrtcbin, hw, hsel, hE, recordPreference_branches,
                recordPreference_teePadCount]
            | true =>
              cases hP : env.payloaderMakeOk with
              | false =>
                simp [create_webrtcbin, hw, hsel, hE, hP, recordPreference_branches,
                  recordPreference_teePadCount]
              | true =>
                simp only [create_webrtcbin, hw, hsel, hE, hP, Bool.not_true,
                  Bool.false_eq_true, if_false]
                refine ⟨(addAndLink_live_raises _ _ _ _ _ _ hlive1).1, ?_, ?_⟩
                · rw [(addAndLink_live_raises _ _ _ _ _ _ hlive1).2.1,
                    recordPreference_branches]
                · rw [(addAndLink_live_raises _ _ _ _ _ _ hlive1).2.2,
                    recordPreference_teePadCount]

/-- C4 witness: after a successful build for client "A", its encoder
child name is in the bin, and a second build request for "A" fails to
create a second branch or tap. -/
theorem c4_no_second_branch_witness :
    ChildName.encoderFor (pyStr (some "A")) ∈ stateAfterFirstBuild.binChildren
    ∧ ((create_webrtcbin envAllOk stateAfterFirstBuild (some "A") (some "vp8")).outcome
         ≠ .success
       ∧ (create_webrtcbin envAllOk stateAfterFirstBuild (some "A") (some "vp8")).state.branches
         = stateAfterFirstBuild.branches
       ∧ (create_webrtcbin envAllOk stateAfterFirstBuild (some "A") (some "vp8")).state.teePadCount
         = stateAfterFirstBuild.teePadCount) :=
  ⟨by decide,
   (c4_at_most_one_branch_per_client envAllOk stateAfterFirstBuild
      (some "A") (some "vp8")).2 (by decide)⟩

/-- C5 counterexample: a build with the unknown preference
"unknown-codec" succeeds using the default codec's encoder, yet the
unknown name IS written into `client_codecs` — refuting "no
preference-derived entry distinct from the default behaviour is
recorded in the ClientCodecTable". -/
theorem c5_counterexample :
    codec_caps.lookup "unknown-codec" = none
    ∧ (create_webrtcbin envAllOk initState (some "A") (some "unknown-codec")).outcome
        = .success
    ∧ (create_webrtcbin envAllOk initState (some "A") (some "unknown-codec")).state.client_codecs
        = [("A", "unknown-codec")] := by
  decide

/-- C5 (amended): an unknown preference behaves like "no preference" for
encoder selection — `find_best_encoder` yields `(None, None)` and the
caller re-queries with the configured default — but the unknown name is
still recorded verbatim in `client_codecs`. -/
theorem c5_unknown_pref_recorded (env : BuildEnv) (s : WebSinkState)
    (cid pref : String)
    (hunk : codec_caps.lookup pref = none)
    (hw : env.webrtcbinOk = true) :
    find_best_encoder env.registry pref = (none, none)
    ∧ selectEncPay env s (some cid) (some pref)
        = find_best_encoder env.registry s.video_codec
    ∧ (create_webrtcbin env s (some cid) (some pref)).state.client_codecs
        = dictInsert cid pref s.client_codecs := by
  have hfb : find_best_encoder env.registry pref = (none, none) := by
    simp [find_best_encoder, hunk]
  refine ⟨hfb, ?_, ?_⟩
  · simp [selectEncPay, effectiveCodec, hfb]
  · rw [create_clientCodecs env s (some cid) (some pref) hw, recordPreference_some]

/-- C5 witness: the amended behaviour at preference "unknown-codec" with
a vp8-only registry. -/
theorem c5_unknown_pref_witness :
    find_best_encoder envAllOk.registry "unknown-codec" = (none, none)
    ∧ selectEncPay envAllOk initState (some "A") (some "unknown-codec")
        = find_best_encoder envAllOk.registry initState.video_codec
    ∧ (create_webrtcbin envAllOk initState (some "A") (some "unknown-codec")).state.client_codecs
        = dictInsert "A" "unknown-codec" initState.client_codecs :=
  c5_unknown_pref_recorded envAllOk initState "A" "unknown-codec" (by decide) rfl

/-- C6: for a known codec whose candidate list is non-empty,
`find_best_encoder` returns the name of the candidate `m` of maximal
rank, and `m` is the FIRST such candidate in registry (discovery) order:
every candidate strictly before it has strictly smaller rank, every
candidate at all has rank at most `m.rank`. Being a pure function of the
registry snapshot, selection is deterministic. -/
theorem c6_select_encoder_first_max (registry : List Factory) (codec target : String)
    (hc : codec_caps.lookup codec = some target)
    (hne : encoderCandidates registry target ≠ []) :
    ∃ m, firstArgmax (encoderCandidates registry target) = some m
      ∧ find_best_encoder registry codec = (some m.name, payloader_map.lookup codec)
      ∧ m ∈ encoderCandidates registry target
      ∧ (∀ x ∈ encoderCandidates registry target, x.rank ≤ m.rank)
      ∧ ∃ l₁ l₂, encoderCandidates registry target = l₁ ++ m :: l₂
          ∧ ∀ x ∈ l₁, x.rank < m.rank := by
  obtain ⟨m, hm⟩ : ∃ m, firstArgmax (encoderCandidates registry target) = some m := by
    cases hfa : firstArgmax (encoderCandidates registry target) with
    | none => exact absurd (firstArgmax_eq_none.1 hfa) hne
    | some m => exact ⟨m, rfl⟩
  have hhead := sortByRankDesc_head (encoderCandidates registry target)
  rw [hm] at hhead
  obtain ⟨hb₁, hb₂, l₁, l₂, hdec, hstrict⟩ := firstArgmax_spec _ _ hm
  refine ⟨m, hm, ?_, hb₁, hb₂, l₁, l₂, hdec, hstrict⟩
  cases hsort : sortByRankDesc (encoderCandidates registry target) with
  | nil => rw [hsort] at hhead; simp at hhead
  | cons b rest =>
    rw [hsort] at hhead
    simp only [List.head?] at hhead
    have hbm : b = m := by simpa using hhead
    simp [find_best_encoder, hc, hsort, hbm]

/-- C6 witness: on a registry where `benc` and `cenc` tie at rank 200
with `benc` registered first, selection resolves and the characterised
best candidate exists. -/
theorem c6_select_encoder_witness :
    codec_caps.lookup "vp8" = some "video/x-vp8"
    ∧ encoderCandidates tieRegistry "video/x-vp8" ≠ []
    ∧ ∃ m, firstArgmax (encoderCandidates tieRegistry "video/x-vp8") = some m
        ∧ find_best_encoder tieRegistry "vp8" = (some m.name, payloader_map.lookup "vp8")
        ∧ m ∈ encoderCandidates tieRegistry "video/x-vp8"
        ∧ (∀ x ∈ encoderCandidates tieRegistry "video/x-vp8", x.rank ≤ m.rank)
        ∧ ∃ l₁ l₂, encoderCandidates tieRegistry "video/x-vp8" = l₁ ++ m :: l₂
            ∧ ∀ x ∈ l₁, x.rank < m.rank :=
  ⟨by decide, by decide,
   c6_select_encoder_first_max tieRegistry "vp8" "video/x-vp8" (by decide) (by decide)⟩

/-- C7 counterexample: on a fully successful build the instantiation
trace is webrtcbin, encoder, payloader, queue — the buffer stage comes
LAST, not second — refuting the claimed order transport endpoint, buffer
stage, encoder, packetizer. -/
theorem c7_counterexample :
    (create_webrtcbin envAllOk initState (some "A") (some "vp8")).events
      = [.make "webrtcbin", .make "vp8enc", .make "rtpvp8pay", .make "queue", .requestPad]
    ∧ (create_webrtcbin envAllOk initState (some "A") (some "vp8")).events
      ≠ [.make "webrtcbin", .make "queue", .make "vp8enc", .make "rtpvp8pay", .requestPad] := by
  decide

/-- C7 (amended): every successful build instantiates, in order, the
transport endpoint (webrtcbin), then the encoder, then the packetizer
(payloader), then the buffer stage (queue), and only then requests the
tee pad. -/
theorem c7_instantiation_order (env : BuildEnv) (s : WebSinkState)
    (cid pref : Option String)
    (h : (create_webrtcbin env s cid pref).outcome = .success) :
    ∃ e p, selectEncPay env s cid pref = (some e, some p)
    ∧ (create_webrtcbin env s cid pref).events
        = [.make "webrtcbin", .make e, .make p, .make "queue", .requestPad] := by
  obtain ⟨e, p, hsel, heq⟩ := create_success_eq env s cid pref h
  exact ⟨e, p, hsel, by rw [heq]⟩

/-- C7 witness: the amended order on a concrete successful build. -/
theorem c7_instantiation_witness :
    ∃ e p, selectEncPay envAllOk initState (some "A") (some "vp8") = (some e, some p)
    ∧ (create_webrtcbin envAllOk initState (some "A") (some "vp8")).events
        = [.make "webrtcbin", .make e, .make p, .make "queue", .requestPad] :=
  c7_instantiation_order envAllOk initState (some "A") (some "vp8") (by decide)

/-- C8: requesting activation (`NULL_TO_READY`) while `servers_started`
is true is a pure no-op, requesting deactivation (`READY_TO_NULL`) while
it is false is a pure no-op, and a full double-activate/double-deactivate
cycle from a fresh state starts the servers exactly once and stops them
exactly once. -/
theorem c8_lifecycle_idempotent (env : ServerEnv) (s : WebSinkState) :
    (s.servers_started = true →
       do_change_state env s .NULL_TO_READY = ⟨.SUCCESS, s, []⟩)
    ∧ (s.servers_started = false →
       do_change_state env s .READY_TO_NULL = ⟨.SUCCESS, s, []⟩)
    ∧ (s.servers_started = false → env.startOk = true →
       (do_change_state env s .NULL_TO_READY).events
         ++ (do_change_state env (do_change_state env s .NULL_TO_READY).state
               .NULL_TO_READY).events
         ++ (do_change_state env (do_change_state env
               (do_change_state env s .NULL_TO_READY).state .NULL_TO_READY).state
               .READY_TO_NULL).events
         ++ (do_change_state env (do_change_state env (do_change_state env
               (do_change_state env s .NULL_TO_READY).state .NULL_TO_READY).state
               .READY_TO_NULL).state .READY_TO_NULL).events
         = [.startServers, .httpShutdown, .signalingStop]) := by
  refine ⟨fun h => ?_, fun h => ?_, fun h hok => ?_⟩
  · simp [do_change_state, h]
  · simp [do_change_state, h]
  · simp [do_change_state, stop_servers, h, hok]

/-- C8 witness: the no-ops and the single-start single-stop cycle on
concrete states. -/
theorem c8_lifecycle_witness :
    ((⟨"vp8", [], 0, [], [.convert, .tee], 0, true, true, true⟩ : WebSinkState).servers_started = true →
       do_change_state ⟨true⟩ ⟨"vp8", [], 0, [], [.convert, .tee], 0, true, true, true⟩ .NULL_TO_READY
         = ⟨.SUCCESS, ⟨"vp8", [], 0, [], [.convert, .tee], 0, true, true, true⟩, []⟩)
    ∧ ((⟨"vp8", [], 0, [], [.convert, .tee], 0, true, true, true⟩ : WebSinkState).servers_started = false →
       do_change_state ⟨true⟩ ⟨"vp8", [], 0, [], [.convert, .tee], 0, true, true, true⟩ .READY_TO_NULL
         = ⟨.SUCCESS, ⟨"vp8", [], 0, [], [.convert, .tee], 0, true, true, true⟩, []⟩)
    ∧ ((⟨"vp8", [], 0, [], [.convert, .tee], 0, true, true, true⟩ : WebSinkState).servers_started = false →
       (⟨true⟩ : ServerEnv).startOk = true →
       (do_change_state ⟨true⟩ ⟨"vp8", [], 0, [], [.convert, .tee], 0, true, true, true⟩ .NULL_TO_READY).events
         ++ (do_change_state ⟨true⟩ (do_change_state ⟨true⟩
               ⟨"vp8", [], 0, [], [.convert, .tee], 0, true, true, true⟩ .NULL_TO_READY).state
               .NULL_TO_READY).events
         ++ (do_change_state ⟨true⟩ (do_change_state ⟨true⟩ (do_change_state ⟨true⟩
               ⟨"vp8", [], 0, [], [.convert, .tee], 0, true, true, true⟩ .NULL_TO_READY).state
               .NULL_TO_READY).state .READY_TO_NULL).events
         ++ (do_change_state ⟨true⟩ (do_change_state ⟨true⟩ (do_change_state ⟨true⟩
               (do_change_state ⟨true⟩ ⟨"vp8", [], 0, [], [.convert, .tee], 0, true, true, true⟩
                 .NULL_TO_READY).state .NULL_TO_READY).state
               .READY_TO_NULL).state .READY_TO_NULL).events
         = [.startServers, .httpShutdown, .signalingStop]) :=
  c8_lifecycle_idempotent ⟨true⟩ ⟨"vp8", [], 0, [], [.convert, .tee], 0, true, true, true⟩

/-- C9: when `start_servers` raises during `NULL_TO_READY`, the
transition returns `FAILURE` with the state untouched (`servers_started`
still false), and a later activation attempt in an environment where
startup succeeds completes with the servers started — the failure is
not fatal to the process. -/
theorem c9_start_failure_recoverable (env : ServerEnv) (s : WebSinkState)
    (hns : s.servers_started = false) (hfail : env.startOk = false) :
    do_change_state env s .NULL_TO_READY = ⟨.FAILURE, s, []⟩
    ∧ ∀ env2 : ServerEnv, env2.startOk = true →
        (do_change_state env2 s .NULL_TO_READY).ret = .SUCCESS
        ∧ (do_change_state env2 s .NULL_TO_READY).state.servers_started = true := by
  refine ⟨by simp [do_change_state, hns, hfail], fun env2 hok => ?_⟩
  constructor <;> simp [do_change_state, hns, hok]

/-- C9 witness: a failed activation on the fresh state followed by a
successful retry. -/
theorem c9_start_failure_witness :
    do_change_state ⟨false⟩ initState .NULL_TO_READY = ⟨.FAILURE, initState, []⟩
    ∧ ∀ env2 : ServerEnv, env2.startOk = true →
        (do_change_state env2 initState .NULL_TO_READY).ret = .SUCCESS
        ∧ (do_change_state env2 initState .NULL_TO_READY).state.servers_started = true :=
  c9_start_failure_recoverable ⟨false⟩ initState rfl rfl

/-- C10: when every step up to the queue succeeds but
`Gst.ElementFactory.make('queue', None)` returns None, the call does not
return `None` through the `if not queue` guard — that guard sits after
`queue.set_property('leaky', 2)`, which has already raised
`AttributeError` — so the call terminates by raising, and the guarded
error branch is unreachable. -/
theorem c10_queue_guard_unreachable (env : BuildEnv) (s : WebSinkState)
    (cid pref : Option String) (e p : String)
    (hsel : selectEncPay env s cid pref = (some e, some p))
    (hw : env.webrtcbinOk = true) (he : env.encoderMakeOk = true)
    (hp : env.payloaderMakeOk = true) (hq : env.queueMakeOk = false) :
    (create_webrtcbin env s cid pref).outcome = .raised
    ∧ (create_webrtcbin env s cid pref).outcome ≠ .retNone := by
  have : (create_webrtcbin env s cid pref).outcome = .raised := by
    simp [create_webrtcbin, addAndLink, hw, hsel, he, hp, hq]
  exact ⟨this, by rw [this]; exact fun hc => Outcome.noConfusion hc⟩

/-- C10 witness: the queue-creation failure raising on a concrete
otherwise-successful environment. -/
theorem c10_queue_guard_witness :
    (create_webrtcbin envNoQueue initState (some "A") (some "vp8")).outcome = .raised
    ∧ (create_webrtcbin envNoQueue initState (some "A") (some "vp8")).outcome ≠ .retNone :=
  c10_queue_guard_unreachable envNoQueue initState (some "A") (some "vp8")
    "vp8enc" "rtpvp8pay" (by decide) rfl rfl rfl rfl

end WebRTCWebSink
